import Mathlib

/-!
Verification of the chapter-generation core of the ether_stories repository.

The development shallowly embeds, in Lean, the control flow of:
  * `src/app/agents/narrative_agent/orchestrator.py`
      (`generer_chapitre`, the retry loop, and `main`, the run coordinator);
  * `src/agents/multi agents/moderateur.py` (`verifier_coherence`);
  * `src/app/agents/narrative/moderator.py` (`verify_coherence`);
  * `src/app/agents/manager/manager.py` (`ManagerAgent._validate_plan`).
External collaborators (the LLM writer, the judgment model, the image
painter) are injected as function parameters, mirroring the module calls
in the Python source; everything else follows the source line by line.
-/

namespace EtherStories

/-- Boolean substring test on character lists: `substrAux needle hay` is
true iff `needle` occurs contiguously inside `hay` (Python `needle in hay`). -/
def substrAux (needle : List Char) : List Char → Bool
  | [] => needle.isEmpty
  | c :: rest => needle.isPrefixOf (c :: rest) || substrAux needle rest

/-- Python `str.lower()` as a character list: lower-case every character. -/
def lowerChars (s : String) : List Char := s.data.map Char.toLower

/-- Python `m.lower() in story_text.lower()` from orchestrator.py line 182:
case-insensitive substring containment. -/
def containsLower (hay needle : String) : Bool :=
  substrAux (lowerChars needle) (lowerChars hay)

/-- The `ChapterPrompt` dataclass of story_types.py / orchestrator.py. -/
structure ChapterPrompt where
  chapter_number : Nat
  title : String
  summary : String
  duration_minutes : Nat
deriving Repr, DecidableEq

/-- The `ChapterResult` dataclass of story_types.py / orchestrator.py. -/
structure ChapterResult where
  chapter_number : Nat
  story_text : String
  illustration_path : String
  status : String
  error_message : Option String
deriving Repr, DecidableEq

/-- The `meta` dict returned next to a `ChapterResult` by
`generer_chapitre` (keys `coherent`, `image`, `status`, `tentatives`). -/
structure GenMeta where
  coherent : Bool
  image : Option String
  status : String
  tentatives : Nat
deriving Repr, DecidableEq

/-- Outcome of one call to `writer.generer_chapitre`: either the returned
text, or a raised exception carrying its message. -/
inductive WriterOut where
  | text (s : String)
  | err (msg : String)
deriving Repr, DecidableEq

/-- What one iteration of the retry loop in `generer_chapitre` does:
either `continue` to the next attempt, or return a result and meta dict. -/
inductive StepRes where
  | retry
  | done (r : ChapterResult) (m : GenMeta)
deriving Repr, DecidableEq

/-- The image file path `OUTPUT_DIR / f"chapter_{n}.png"` (orchestrator.py
line 211), kept as the final path component. -/
def imageFile (chap : ChapterPrompt) : String :=
  "chapter_" ++ toString chap.chapter_number ++ ".png"

/-- The `ChapterResult` built in the exception handler of
`generer_chapitre` (orchestrator.py lines 247-253). -/
def excResult (chap : ChapterPrompt) (msg : String) : ChapterResult :=
  { chapter_number := chap.chapter_number
    story_text := ""
    illustration_path := ""
    status := "failed"
    error_message := some msg }

/-- One iteration (attempt `t`, 1-based) of the retry loop in
`generer_chapitre` (orchestrator.py lines 142-257). Collaborators are
injected: `writerOut t` is the writer call on attempt `t` (the prompt it
receives does not alter the loop's control flow, so it is folded into the
function), `moder prev t` is the boolean verdict of
`moderator.verifier_coherence` on attempt `t` given the previous-chapter
texts, and `painterOk` tells whether `painter.generer_image` ran without
exception and left the image file on disk. The second component records
whether the moderator was invoked during this iteration. -/
def attemptStep (peurs : List String) (chap : ChapterPrompt)
    (writerOut : Nat → WriterOut) (moder : List String → Nat → Bool)
    (painterOk : Bool) (prev : List String) (maxRetry t : Nat) :
    StepRes × Bool :=
  match writerOut t with
  | .err msg =>
      -- the writer raised; caught at lines 244-257
      if maxRetry ≤ t then
        (.done (excResult chap msg)
          { coherent := false, image := none, status := "failed", tentatives := t }, false)
      else (.retry, false)
  | .text s =>
      if s = "" then
        -- `raise RuntimeError("Texte vide")`, caught by the same handler
        if maxRetry ≤ t then
          (.done (excResult chap "Texte vide")
            { coherent := false, image := none, status := "failed", tentatives := t }, false)
        else (.retry, false)
      else
        -- local lexical check, lines 181-187
        let violations := peurs.filter (fun m => containsLower s m)
        if violations ≠ [] ∧ t < maxRetry then (.retry, false)
        else
          -- moderator call, lines 190-200
          let coherent := moder prev t
          if coherent = false ∧ t < maxRetry then (.retry, true)
          else
            -- image generation (only if coherent), lines 208-226
            let image_path : Option String :=
              if coherent ∧ painterOk then some (imageFile chap) else none
            (.done
              { chapter_number := chap.chapter_number
                story_text := s
                illustration_path := image_path.getD ""
                status := if coherent then "ok" else "failed"
                error_message := if coherent then none else some "Rejeté par modérateur" }
              { coherent := coherent, image := image_path
                status := if coherent then "ok" else "failed", tentatives := t }, true)

/-- Full outcome of `generer_chapitre`: the returned pair plus an
instrumentation counter of how many times the moderator was invoked. -/
structure GenResult where
  result : ChapterResult
  meta : GenMeta
  moderCalls : Nat
deriving Repr, DecidableEq

/-- The result returned after the `for` loop falls through
(orchestrator.py lines 260-268). -/
def fallbackResult (chap : ChapterPrompt) (maxRetry : Nat) : GenResult :=
  { result :=
      { chapter_number := chap.chapter_number
        story_text := ""
        illustration_path := ""
        status := "failed"
        error_message := some ("Échec après " ++ toString maxRetry ++ " tentatives") }
    meta := { coherent := false, image := none, status := "failed", tentatives := maxRetry }
    moderCalls := 0 }

/-- The retry loop `for tentative in range(1, max_retry + 1)` of
`generer_chapitre`, run from attempt `t` with `fuel` iterations left. -/
def genLoopAux (peurs : List String) (chap : ChapterPrompt)
    (writerOut : Nat → WriterOut) (moder : List String → Nat → Bool)
    (painterOk : Bool) (prev : List String) (maxRetry : Nat) :
    Nat → Nat → GenResult
  | 0, _ => fallbackResult chap maxRetry
  | fuel + 1, t =>
      match attemptStep peurs chap writerOut moder painterOk prev maxRetry t with
      | (.retry, called) =>
          let r := genLoopAux peurs chap writerOut moder painterOk prev maxRetry fuel (t + 1)
          { r with moderCalls := (if called then 1 else 0) + r.moderCalls }
      | (.done res m, called) =>
          { result := res, meta := m, moderCalls := if called then 1 else 0 }

/-- Embedding of `generer_chapitre(context, chapter, previous_chapters, input_chapters,
max_retry)` (orchestrator.py lines 130-268), with collaborators injected. -/
def generer_chapitre (peurs : List String) (chap : ChapterPrompt)
    (writerOut : Nat → WriterOut) (moder : List String → Nat → Bool)
    (painterOk : Bool) (prev : List String) (maxRetry : Nat) : GenResult :=
  genLoopAux peurs chap writerOut moder painterOk prev maxRetry maxRetry 1

/-- Python slice `previous_chapters[-2:]` (moderateur.py line 75): the
last two elements, or the whole list when it is shorter. -/
def lastTwo (l : List α) : List α := l.drop (l.length - 2)

/-- The previous-chapter texts that `verifier_coherence` embeds into the
judgment prompt (moderateur.py lines 71-76): nothing when the list is
empty, otherwise the last two. -/
def promptIncludedChapters (previous : List String) : List String :=
  if previous.isEmpty then [] else lastTwo previous

/-- A raw chapter entry of `plan.json` (keys `numero`, `titre`, `resume`,
`duree_minutes`). -/
structure ChapRaw where
  numero : Nat
  titre : String
  resume : String
  duree_minutes : Nat
deriving Repr, DecidableEq

/-- The expected-summary lookup of `verifier_coherence` (moderateur.py
lines 42-47); the Python guard `if input_chapters and current_chapter_num`
treats an empty list, `None` and `0` as false. -/
def expectedSummary (input_chapters : List ChapRaw) (current : Option Nat) : String :=
  match current with
  | none => ""
  | some n =>
      if input_chapters ≠ [] ∧ n ≠ 0 then
        ((input_chapters.find? (fun c => c.numero == n)).map (fun c => c.resume)).getD ""
      else ""

/-- The `prompt_parts` list built by `verifier_coherence` (moderateur.py
lines 50-82). -/
def moderationPromptParts (texte expected_summary : String)
    (characters forbidden previous : List String) : List String :=
  ["Tu es un modérateur. Vérifie si le texte respecte TOUS les critères.",
   "", "📝 TEXTE :", texte, "", "✅ CRITÈRES :"]
  ++ (if expected_summary ≠ "" then
        ["1. Le texte suit-il cette histoire : «" ++ expected_summary ++ "»"] else [])
  ++ (if characters ≠ [] then
        ["2. Tous ces personnages sont présents : " ++ String.intercalate ", " characters]
      else [])
  ++ (if forbidden ≠ [] then
        ["3. 🚫 CRITIQUE : Le texte ne contient AUCUN de ces mots : "
           ++ String.intercalate ", " forbidden,
         "   Si UN SEUL mot interdit apparaît → coherent: false"]
      else [])
  ++ (if previous.isEmpty then [] else
        ["", "📚 CHAPITRES PRÉCÉDENTS :",
         String.intercalate "\n---\n" (promptIncludedChapters previous)])
  ++ ["", "🎯 RÉPONDS UNIQUEMENT :",
      "\x7b\"coherent\": true\x7d ou \x7b\"coherent\": false, \"raison\": \"...\"\x7d"]

/-- The API-with-retry loop of `verifier_coherence` (moderateur.py lines
87-130): `judge a` is the outcome of attempt `a` — `some c` when the call
succeeded and its JSON parsed to verdict `c`, `none` on any exception
(transport failure, malformed or JSON-free response). When all attempts
error the function falls through to the accept-by-default fallback. -/
def verifierLoop (judge : Nat → Option Bool) : Nat → Nat → Bool
  | 0, _ => true
  | fuel + 1, a =>
      match judge a with
      | some c => c
      | none => verifierLoop judge fuel (a + 1)

/-- Embedding of `verifier_coherence` of moderateur.py (lines 20-130). `clientPresent`
models `client is not None` (a Groq API key is configured); `judge` takes
the prompt string and the attempt number. With no client the function
returns `True` at once; otherwise it runs `retries + 1` API attempts and
accepts by default when they all error. -/
def verifier_coherence (clientPresent : Bool)
    (judge : String → Nat → Option Bool) (texte : String)
    (previous_chapters : List String) (input_chapters : List ChapRaw)
    (characters forbidden_elements : List String)
    (current_chapter_num : Option Nat) (retries : Nat) : Bool :=
  if clientPresent = false then true
  else
    let prompt := String.intercalate "\n"
      (moderationPromptParts texte
        (expectedSummary input_chapters current_chapter_num)
        characters forbidden_elements previous_chapters)
    verifierLoop (judge prompt) (retries + 1) 1

/-- The JSON object parsed out of the judgment model's reply in
`verify_coherence` (moderator.py); every key may be absent. -/
structure ParsedModeration where
  approved : Option Bool
  safe_for_children : Option Bool
  age_appropriate : Option Bool
  reason : Option String
  severity : Option String
deriving Repr, DecidableEq

/-- The dict returned by `verify_coherence` of
src/app/agents/narrative/moderator.py. -/
structure ModResult where
  coherent : Bool
  approved : Option Bool
  safe_for_children : Option Bool
  reason : Option String
  severity : Option String
  user_message : Option String
deriving Repr, DecidableEq

/-- The `ERROR_MESSAGES` lookup `get_user_friendly_error` of
context_loader.py (lines 128-150). -/
def get_user_friendly_error (error_type : String) : String :=
  if error_type = "CONTENT_REJECTED" then
    "Ce thème n'est pas adapté pour une histoire pour enfants. Essayez avec un autre sujet! 🌟"
  else if error_type = "FORMAT_VIOLATION" then
    "Format de demande invalide. Veuillez réessayer."
  else if error_type = "MODERATION_FAILED" then
    "Nous ne pouvons pas créer cette histoire. Le contenu demandé n'est pas approprié pour les enfants. 🚫"
  else if error_type = "TRANSLATION_ERROR" then
    "Erreur de traduction. Veuillez réessayer."
  else
    "Une erreur s'est produite lors de la création. Veuillez réessayer. 🔄"

/-- Embedding of `verify_coherence(text, context)` of moderator.py (lines 12-71).
`resp` is the single judgment call's outcome: `.ok parsed` when the API
call succeeded and its JSON parsed, `.error e` when any exception was
raised (transport failure, unparseable body). -/
def verify_coherence (resp : Except String ParsedModeration) : ModResult :=
  match resp with
  | .ok p =>
      let user_message :=
        if p.approved.getD true = false ∨ p.severity = some "rejected" then
          some (get_user_friendly_error "MODERATION_FAILED")
        else none
      { coherent := p.approved.getD true
        approved := p.approved
        safe_for_children := p.safe_for_children
        reason := p.reason
        severity := p.severity
        user_message := user_message }
  | .error e =>
      { coherent := false
        approved := some false
        safe_for_children := some false
        reason := some ("Moderation check failed: " ++ e)
        severity := some "rejected"
        user_message := some (get_user_friendly_error "GENERATION_ERROR") }

/-- One persisted entry of `output.json` (orchestrator.py lines 323-333);
the wall-clock `generated_at` field is omitted from the embedding. -/
structure Entry where
  chapter_number : Nat
  title : String
  summary : String
  story_text : String
  image : Option String
  status : String
  coherent : Bool
  tentatives : Nat
deriving Repr, DecidableEq

/-- External collaborators for a whole run, indexed by chapter number. -/
structure Collab where
  writer : Nat → Nat → WriterOut
  moder : Nat → List String → Nat → Bool
  painterOk : Nat → Bool

/-- The `_map_chapter_input` conversion (orchestrator.py lines 119-126). -/
def mapChapterInput (raw : ChapRaw) : ChapterPrompt :=
  { chapter_number := raw.numero
    title := raw.titre
    summary := raw.resume
    duration_minutes := raw.duree_minutes }

/-- The entry appended to `output_data["chapitres"]` for one generated
chapter (orchestrator.py lines 323-334). -/
def entryOf (raw : ChapRaw) (g : GenResult) : Entry :=
  { chapter_number := g.result.chapter_number
    title := raw.titre
    summary := raw.resume
    story_text := g.result.story_text
    image := g.meta.image
    status := g.meta.status
    coherent := g.meta.coherent
    tentatives := g.meta.tentatives }

/-- One iteration of the chapter loop in `main` (orchestrator.py lines
298-335): skip when an entry with this `chapter_number` exists, otherwise
invoke `generer_chapitre` with the previous entries' texts as continuity
context and append the result. The second component counts orchestrator
invocations. -/
def runStep (col : Collab) (peurs : List String) (state : List Entry)
    (raw : ChapRaw) : List Entry × Nat :=
  if state.any (fun c => c.chapter_number == raw.numero) then (state, 0)
  else
    let prev := state.map (fun c => c.story_text)
    let g := generer_chapitre peurs (mapChapterInput raw)
      (col.writer raw.numero) (col.moder raw.numero) (col.painterOk raw.numero) prev 3
    (state ++ [entryOf raw g], 1)

/-- The run coordinator: the chapter loop of `main` (orchestrator.py
lines 298-335) folded over the plan's chapter list, starting from the
persisted `output.json` state; returns the final state and the number of
`generer_chapitre` invocations. -/
def runCoordinator (col : Collab) (peurs : List String) :
    List ChapRaw → List Entry → List Entry × Nat
  | [], state => (state, 0)
  | raw :: rest, state =>
      let step := runStep col peurs state raw
      let r := runCoordinator col peurs rest step.1
      (r.1, step.2 + r.2)

/-- The parsed `plan.json` dict as seen by `ManagerAgent._validate_plan`
(manager.py lines 339-358): which required keys are present, whether
`plan` carries `titre`, and the chapter list. -/
structure PlanJson where
  hasPlan : Bool
  hasChapitres : Bool
  hasMorale : Bool
  hasPersonnages : Bool
  hasElementsCles : Bool
  planTitre : Option String
  chapitres : List ChapRaw
deriving Repr, DecidableEq

/-- Embedding of `ManagerAgent._validate_plan` (manager.py lines 339-358): returns
`.error msg` where the Python raises `ValueError(msg)`. -/
def validate_plan (p : PlanJson) : Except String Bool :=
  if p.hasPlan = false then .error "Plan incomplet: clé manquante 'plan'"
  else if p.hasChapitres = false then .error "Plan incomplet: clé manquante 'chapitres'"
  else if p.hasMorale = false then .error "Plan incomplet: clé manquante 'morale'"
  else if p.hasPersonnages = false then .error "Plan incomplet: clé manquante 'personnages'"
  else if p.hasElementsCles = false then .error "Plan incomplet: clé manquante 'elements_cles'"
  else if p.planTitre.isNone then .error "Plan.plan.titre manquant"
  else if p.chapitres.isEmpty then .error "Plan.chapitres doit être une liste non vide"
  else .ok true

/-- A generated chapter entry of the LangGraph workflow (the `Chapter`
TypedDict of state.py); the generation loop always leaves `traduction`
unset. -/
structure WChapter where
  numero : Nat
  titre : String
  resume : String
  duree_minutes : Nat
  contenu : Option String
  image_path : Option String
  audio_path : Option String
  traduction : Option String
deriving Repr, DecidableEq

/-- The fields of `StoryState` (state.py) that the chapter-generation
loop of workflow.py reads or writes once a successful `manager_node` has
installed the plan; `chapters` is `plan["chapitres"]`. -/
structure WorkflowState where
  chapters : List ChapRaw
  current_chapter_index : Nat
  generated_chapters : List WChapter
  is_complete : Bool
  error : Option String
  current_chapter_content : Option String
  current_chapter_image : Option String
  current_chapter_audio : Option String
deriving Repr, DecidableEq

/-- The error message set by `moderator_node` (workflow.py line 89) when
the verdict is not coherent; Python's f-string renders a missing
`reason` key (`result.get("reason")` returning `None`) as "None". -/
def moderationRejectedMsg (r : ModResult) : String :=
  "Moderation rejected: " ++ (match r.reason with | some m => m | none => "None")

/-- The chapter loop of the compiled LangGraph workflow (workflow.py
lines 176-229), entered at the `writer` node: writer → moderator (the
edge is unconditional) → `check_moderation` (lines 167-172: END on
error) → painter → narrator → finalize → `check_completion` (lines
160-165: END on error or completion, else back to writer). `wW i` is the
outcome of `generate_chapter_content` for chapter index `i`; `mW i` the
judgment outcome consumed by `verify_coherence`; `pW i` / `aW i` the
painter and narrator return values (both catch their own exceptions and
return "" on failure). A `.error` result models an uncaught Python
exception: IndexError on a bad chapter index, AttributeError when the
moderator receives `None` content after a writer error, since
`wrap_content_for_moderation` runs before `verify_coherence`'s `try`. -/
def workflowChapterLoop (wW : Nat → WriterOut)
    (mW : Nat → Except String ParsedModeration) (pW aW : Nat → String) :
    Nat → WorkflowState → Except String WorkflowState
  | 0, s => .ok s
  | fuel + 1, s =>
      -- writer_node (workflow.py lines 43-67)
      match s.chapters.get? s.current_chapter_index with
      | none => .error "IndexError"
      | some _ =>
          let s1 := match wW s.current_chapter_index with
            | .text c => { s with current_chapter_content := some c, error := none }
            | .err e => { s with error := some e }
          -- moderator_node (lines 69-89)
          match s1.current_chapter_content with
          | none => .error "AttributeError"
          | some _ =>
              let r := verify_coherence (mW s1.current_chapter_index)
              let s2 := if r.coherent then { s1 with error := none }
                else { s1 with error := some (moderationRejectedMsg r) }
              -- check_moderation: stop on error
              if s2.error.isSome then .ok s2
              else
                -- painter_node and narrator_node (lines 91-114)
                let s3 := { s2 with current_chapter_image := some (pW s2.current_chapter_index) }
                let s4 := { s3 with current_chapter_audio := some (aW s3.current_chapter_index) }
                -- chapter_finalize_node (lines 116-146)
                match s4.chapters.get? s4.current_chapter_index with
                | none => .error "IndexError"
                | some chap =>
                    let s5 := { s4 with
                      generated_chapters := s4.generated_chapters ++
                        [{ numero := chap.numero, titre := chap.titre
                           resume := chap.resume, duree_minutes := chap.duree_minutes
                           contenu := s4.current_chapter_content
                           image_path := s4.current_chapter_image
                           audio_path := s4.current_chapter_audio
                           traduction := none }]
                      current_chapter_index := s4.current_chapter_index + 1
                      is_complete := decide (s4.chapters.length ≤ s4.current_chapter_index + 1)
                      current_chapter_content := none
                      current_chapter_image := none
                      current_chapter_audio := none }
                    -- check_completion
                    if s5.error.isSome then .ok s5
                    else if s5.is_complete then .ok s5
                    else workflowChapterLoop wW mW pW aW fuel s5

/-- The state installed by a successful `manager_node` (workflow.py
lines 36-41): index 0, no generated chapters, not complete, no error. -/
def wfInit (chapters : List ChapRaw) : WorkflowState :=
  { chapters := chapters, current_chapter_index := 0, generated_chapters := []
    is_complete := false, error := none, current_chapter_content := none
    current_chapter_image := none, current_chapter_audio := none }

/-- A full workflow run from the writer entry after a successful manager
node, with enough loop fuel for every planned chapter (each iteration
either ends the run or advances the index). -/
def workflowRun (wW : Nat → WriterOut)
    (mW : Nat → Except String ParsedModeration) (pW aW : Nat → String)
    (chapters : List ChapRaw) : Except String WorkflowState :=
  workflowChapterLoop wW mW pW aW (chapters.length + 1) (wfInit chapters)

/-- A concrete two-chapter plan. -/
def wfPlanTwo : List ChapRaw :=
  [{ numero := 1, titre := "Un", resume := "a", duree_minutes := 2 },
   { numero := 2, titre := "Deux", resume := "b", duree_minutes := 2 }]

/-- A concrete chapter specification used to exercise the definitions. -/
def sampleChapter : ChapterPrompt :=
  { chapter_number := 1, title := "Chapitre un"
    summary := "Une rencontre amicale", duration_minutes := 2 }

/-- Concrete collaborators whose writer always fails at transport level,
whose moderator always rejects, and whose painter never produces a file. -/
def stubCollab : Collab :=
  { writer := fun _ _ => .err "transport"
    moder := fun _ _ _ => false
    painterOk := fun _ => false }

/-- A parsed `plan.json` with every required key present and an empty
chapter list. -/
def emptyChaptersPlan : PlanJson :=
  { hasPlan := true, hasChapitres := true, hasMorale := true
    hasPersonnages := true, hasElementsCles := true
    planTitre := some "Histoire", chapitres := [] }

/-! ### Invariants of the per-attempt step and the retry loop -/

lemma attemptStep_done_inv {peurs : List String} {chap : ChapterPrompt}
    {writerOut : Nat → WriterOut} {moder : List String → Nat → Bool}
    {painterOk : Bool} {prev : List String} {maxRetry t : Nat}
    {r : ChapterResult} {m : GenMeta} {called : Bool}
    (h : attemptStep peurs chap writerOut moder painterOk prev maxRetry t
           = (.done r m, called)) :
    r.chapter_number = chap.chapter_number ∧
    (r.error_message = none ↔ r.status = "ok") ∧
    (r.status = "ok" ∨ r.status = "failed") ∧
    m.status = r.status ∧ m.tentatives = t ∧
    (m.coherent = true → r.status = "ok") ∧
    (painterOk = false → r.illustration_path = "") := by
  unfold attemptStep at h
  cases hw : writerOut t with
  | text s =>
    rw [hw] at h
    dsimp only at h
    by_cases hs : s = ""
    · rw [if_pos hs] at h
      split at h
      · simp only [Prod.mk.injEq, StepRes.done.injEq] at h
        obtain ⟨⟨hr, hm⟩, -⟩ := h
        subst hr; subst hm
        simp [excResult]
      · simp at h
    · rw [if_neg hs] at h
      split at h
      · simp at h
      · split at h
        · simp at h
        · simp only [Prod.mk.injEq, StepRes.done.injEq] at h
          obtain ⟨⟨hr, hm⟩, -⟩ := h
          subst hr; subst hm
          cases hcoh : moder prev t <;> simp [hcoh]
          intro hp
          simp [hp]
  | err msg =>
    rw [hw] at h
    dsimp only at h
    split at h
    · simp only [Prod.mk.injEq, StepRes.done.injEq] at h
      obtain ⟨⟨hr, hm⟩, -⟩ := h
      subst hr; subst hm
      simp [excResult]
    · simp at h

lemma genLoopAux_inv (peurs : List String) (chap : ChapterPrompt)
    (writerOut : Nat → WriterOut) (moder : List String → Nat → Bool)
    (painterOk : Bool) (prev : List String) (maxRetry : Nat) :
    ∀ fuel t,
      (genLoopAux peurs chap writerOut moder painterOk prev maxRetry fuel t).result.chapter_number
        = chap.chapter_number ∧
      ((genLoopAux peurs chap writerOut moder painterOk prev maxRetry fuel t).result.error_message
          = none ↔
        (genLoopAux peurs chap writerOut moder painterOk prev maxRetry fuel t).result.status = "ok") ∧
      ((genLoopAux peurs chap writerOut moder painterOk prev maxRetry fuel t).result.status = "ok" ∨
        (genLoopAux peurs chap writerOut moder painterOk prev maxRetry fuel t).result.status = "failed") ∧
      ((genLoopAux peurs chap writerOut moder painterOk prev maxRetry fuel t).meta.status
        = (genLoopAux peurs chap writerOut moder painterOk prev maxRetry fuel t).result.status) ∧
      ((genLoopAux peurs chap writerOut moder painterOk prev maxRetry fuel t).meta.coherent = true →
        (genLoopAux peurs chap writerOut moder painterOk prev maxRetry fuel t).result.status = "ok") ∧
      (painterOk = false →
        (genLoopAux peurs chap writerOut moder painterOk prev maxRetry fuel t).result.illustration_path = "") := by
  intro fuel
  induction fuel with
  | zero =>
    intro t
    simp [genLoopAux, fallbackResult]
  | succ f ih =>
    intro t
    rw [genLoopAux]
    rcases hstep : attemptStep peurs chap writerOut moder painterOk prev maxRetry t
      with ⟨sr, called⟩
    cases sr with
    | retry =>
      simpa using ih (t + 1)
    | done r m =>
      obtain ⟨h1, h2, h3, h4, _h5, h6, h7⟩ := attemptStep_done_inv hstep
      exact ⟨h1, h2, h3, h4, h6, h7⟩

/-! ### C9 — error_message present iff status failed -/

/-- C9: every `ChapterResult` produced by `generer_chapitre`, on every
path (accepted, moderator-rejected, exception, exhausted retries), has
`error_message` non-null exactly when `status = "failed"`; its status is
always one of `"ok"` and `"failed"`, and `status = "ok"` forces
`error_message = none`. -/
theorem chapterResult_error_iff_failed (peurs : List String)
    (chap : ChapterPrompt) (writerOut : Nat → WriterOut)
    (moder : List String → Nat → Bool) (painterOk : Bool)
    (prev : List String) (maxRetry : Nat) :
    ((generer_chapitre peurs chap writerOut moder painterOk prev maxRetry).result.error_message.isSome
        ↔ (generer_chapitre peurs chap writerOut moder painterOk prev maxRetry).result.status = "failed") ∧
    ((generer_chapitre peurs chap writerOut moder painterOk prev maxRetry).result.status = "ok" ∨
      (generer_chapitre peurs chap writerOut moder painterOk prev maxRetry).result.status = "failed") ∧
    ((generer_chapitre peurs chap writerOut moder painterOk prev maxRetry).result.status = "ok" →
      (generer_chapitre peurs chap writerOut moder painterOk prev maxRetry).result.error_message = none) := by
  obtain ⟨-, h2, h3, -, -, -⟩ :=
    genLoopAux_inv peurs chap writerOut moder painterOk prev maxRetry maxRetry 1
  unfold generer_chapitre
  refine ⟨⟨fun hs => ?_, fun hf => ?_⟩, h3, fun hok => h2.mpr hok⟩
  · rcases h3 with hok | hf
    · exact absurd (h2.mpr hok) (Option.isSome_iff_ne_none.mp hs)
    · exact hf
  · rw [Option.isSome_iff_ne_none]
    intro hnone
    have hok := h2.mp hnone
    rw [hok] at hf
    exact absurd hf (by decide)

/-! ### C4 — illustration failure is non-fatal -/

/-- C4: when the Illustration Generator call errors or leaves no image
file (`painterOk = false`), a chapter whose draft the gate accepted
(`meta.coherent = true`) still comes back with `status = "ok"`, an empty
`illustration_path` and no error message: an illustration failure never
downgrades an accepted chapter to failed. -/
theorem illustration_failure_non_fatal (peurs : List String)
    (chap : ChapterPrompt) (writerOut : Nat → WriterOut)
    (moder : List String → Nat → Bool) (prev : List String) (maxRetry : Nat)
    (hcoh : (generer_chapitre peurs chap writerOut moder false prev maxRetry).meta.coherent = true) :
    (generer_chapitre peurs chap writerOut moder false prev maxRetry).result.status = "ok" ∧
    (generer_chapitre peurs chap writerOut moder false prev maxRetry).result.illustration_path = "" ∧
    (generer_chapitre peurs chap writerOut moder false prev maxRetry).result.error_message = none := by
  obtain ⟨-, h2, -, -, h6, h7⟩ :=
    genLoopAux_inv peurs chap writerOut moder false prev maxRetry maxRetry 1
  have hok := h6 hcoh
  exact ⟨hok, h7 rfl, h2.mpr hok⟩

/-- Witness for C4: an accepting moderator with a failing painter yields
an ok chapter with empty illustration path. -/
theorem illustration_failure_non_fatal_witness :
    (generer_chapitre [] sampleChapter (fun _ => .text "Bonjour tout le monde")
        (fun _ _ => true) false [] 3).meta.coherent = true ∧
    ((generer_chapitre [] sampleChapter (fun _ => .text "Bonjour tout le monde")
        (fun _ _ => true) false [] 3).result.status = "ok" ∧
      (generer_chapitre [] sampleChapter (fun _ => .text "Bonjour tout le monde")
          (fun _ _ => true) false [] 3).result.illustration_path = "" ∧
      (generer_chapitre [] sampleChapter (fun _ => .text "Bonjour tout le monde")
          (fun _ _ => true) false [] 3).result.error_message = none) :=
  ⟨by decide,
    illustration_failure_non_fatal [] sampleChapter (fun _ => .text "Bonjour tout le monde")
      (fun _ _ => true) [] 3 (by decide)⟩

/-! ### C2 — lexical pre-check short-circuit -/

/-- Counterexample to C2 as stated: on the final attempt
(`max_retry = 1`, attempt 1) the draft "Le monstre arrive" matches the
forbidden element "monstre", yet `attemptStep`'s moderator-invoked flag
is `true` — the semantic judgment IS called (call count 1, not 0),
because the guard at orchestrator.py lines 184-187 only skips to the next
attempt when `tentative < max_retry`. -/
theorem lexical_short_circuit_counterexample :
    containsLower "Le monstre arrive" "monstre" = true ∧
    (attemptStep ["monstre"] sampleChapter (fun _ => .text "Le monstre arrive")
        (fun _ _ => true) false [] 1 1).2 = true := by decide

/-- C2 amended: on every attempt strictly before the last one, a draft
matching some forbidden element (case-insensitive substring) makes the
orchestrator retry immediately and the semantic judgment capability is
not invoked during that attempt (its call count for the attempt is zero);
on the final attempt the judgment is invoked even for a matching draft. -/
theorem lexical_short_circuit_amended (peurs : List String)
    (chap : ChapterPrompt) (writerOut : Nat → WriterOut)
    (moder : List String → Nat → Bool) (painterOk : Bool)
    (prev : List String) (maxRetry t : Nat) (s : String)
    (hwt : writerOut t = .text s) (hs : s ≠ "")
    (hforb : ∃ m ∈ peurs, containsLower s m = true) (hlt : t < maxRetry) :
    attemptStep peurs chap writerOut moder painterOk prev maxRetry t = (.retry, false) := by
  have hfilter : peurs.filter (fun m => containsLower s m) ≠ [] := by
    intro hnil
    obtain ⟨m, hmem, hc⟩ := hforb
    have := List.filter_eq_nil_iff.mp hnil m hmem
    simp [hc] at this
  unfold attemptStep
  rw [hwt]
  dsimp only
  rw [if_neg hs, if_pos ⟨hfilter, hlt⟩]

/-- Witness for the amended C2 at a concrete input: attempt 1 of 3 with a
forbidden match retries without any judgment call. -/
theorem lexical_short_circuit_amended_witness :
    attemptStep ["monstre"] sampleChapter (fun _ => .text "Le monstre arrive")
      (fun _ _ => true) false [] 3 1 = (.retry, false) :=
  lexical_short_circuit_amended ["monstre"] sampleChapter
    (fun _ => .text "Le monstre arrive") (fun _ _ => true) false [] 3 1
    "Le monstre arrive" rfl (by decide) ⟨"monstre", by decide, by decide⟩ (by decide)

/-! ### C3 — retry budget exhaustion -/

lemma genLoop_exhaust (peurs : List String) (chap : ChapterPrompt)
    (writerOut : Nat → WriterOut) (moder : List String → Nat → Bool)
    (painterOk : Bool) (prev : List String) (maxRetry : Nat)
    (hw : ∀ t, 1 ≤ t → t ≤ maxRetry → ∃ s, writerOut t = .text s ∧ s ≠ "" ∧
      peurs.filter (fun m => containsLower s m) ≠ [])
    (hm : moder prev maxRetry = false) :
    ∀ fuel t, 1 ≤ t → t ≤ maxRetry → t + fuel = maxRetry + 1 →
      (genLoopAux peurs chap writerOut moder painterOk prev maxRetry fuel t).result.status = "failed" ∧
      (genLoopAux peurs chap writerOut moder painterOk prev maxRetry fuel t).result.error_message
        = some "Rejeté par modérateur" ∧
      (genLoopAux peurs chap writerOut moder painterOk prev maxRetry fuel t).meta.tentatives = maxRetry ∧
      (genLoopAux peurs chap writerOut moder painterOk prev maxRetry fuel t).moderCalls = 1 := by
  intro fuel
  induction fuel with
  | zero => intro t h1 h2 h3; omega
  | succ f ih =>
    intro t h1 h2 h3
    obtain ⟨s, hwt, hs, hfil⟩ := hw t h1 h2
    by_cases hlt : t < maxRetry
    · have hstep : attemptStep peurs chap writerOut moder painterOk prev maxRetry t
          = (.retry, false) := by
        unfold attemptStep
        rw [hwt]
        dsimp only
        rw [if_neg hs, if_pos ⟨hfil, hlt⟩]
      rw [genLoopAux, hstep]
      dsimp only
      have hrec := ih (t + 1) (by omega) (by omega) (by omega)
      refine ⟨hrec.1, hrec.2.1, hrec.2.2.1, ?_⟩
      simp [hrec.2.2.2]
    · have hteq : t = maxRetry := by omega
      subst hteq
      have hstep : attemptStep peurs chap writerOut moder painterOk prev t t
          = (.done
              { chapter_number := chap.chapter_number, story_text := s
                illustration_path := "", status := "failed"
                error_message := some "Rejeté par modérateur" }
              { coherent := false, image := none, status := "failed", tentatives := t }, true) := by
        unfold attemptStep
        rw [hwt]
        dsimp only
        rw [if_neg hs, if_neg (by simp [hlt]), hm]
        rw [if_neg (by simp [hlt])]
        simp
      rw [genLoopAux, hstep]
      exact ⟨rfl, rfl, rfl, rfl⟩

/-- Counterexample to C3 as stated: the Content Generator emits a draft
containing the forbidden element "monstre" on every attempt, yet the run
ends with `status = "ok"` (not failed) after `max_retry = 3` attempts,
because on the final attempt the orchestrator consults the semantic
judgment despite the lexical match, and a judgment that accepts (the
`verifier_coherence` no-API / exhausted-retries default is `True`) makes
the forbidden draft pass. -/
theorem retry_exhaustion_counterexample :
    (generer_chapitre ["monstre"] sampleChapter (fun _ => .text "Le monstre arrive")
        (fun _ _ => true) false [] 3).result.status = "ok" ∧
    (generer_chapitre ["monstre"] sampleChapter (fun _ => .text "Le monstre arrive")
        (fun _ _ => true) false [] 3).meta.tentatives = 3 := by decide

/-- C3 amended: when the Content Generator produces, on every attempt, a
non-empty draft containing a forbidden term, AND the semantic judgment
rejects on the final attempt, the orchestrator performs exactly
`max_retry` attempts (the persisted attempt counter `meta.tentatives`
equals `max_retry` — the `ChapterResult` record itself carries no
attempt_count field), the result has `status = "failed"` with the
moderator-rejection error message, and the judgment was invoked exactly
once (only on the final attempt). If the judgment instead accepts, the
forbidden draft is returned with `status = "ok"`. -/
theorem retry_exhaustion_amended (peurs : List String) (chap : ChapterPrompt)
    (writerOut : Nat → WriterOut) (moder : List String → Nat → Bool)
    (painterOk : Bool) (prev : List String) (maxRetry : Nat)
    (hmax : 1 ≤ maxRetry)
    (hw : ∀ t, 1 ≤ t → t ≤ maxRetry → ∃ s, writerOut t = .text s ∧ s ≠ "" ∧
      peurs.filter (fun m => containsLower s m) ≠ [])
    (hm : moder prev maxRetry = false) :
    (generer_chapitre peurs chap writerOut moder painterOk prev maxRetry).meta.tentatives = maxRetry ∧
    (generer_chapitre peurs chap writerOut moder painterOk prev maxRetry).result.status = "failed" ∧
    (generer_chapitre peurs chap writerOut moder painterOk prev maxRetry).result.error_message
      = some "Rejeté par modérateur" ∧
    (generer_chapitre peurs chap writerOut moder painterOk prev maxRetry).moderCalls = 1 := by
  obtain ⟨hst, herr, hten, hcalls⟩ :=
    genLoop_exhaust peurs chap writerOut moder painterOk prev maxRetry hw hm
      maxRetry 1 le_rfl hmax (by omega)
  exact ⟨hten, hst, herr, hcalls⟩

/-- Witness for the amended C3: always-forbidden writer plus an
always-rejecting judgment ends failed at attempt 3 of 3 with one
judgment call. -/
theorem retry_exhaustion_amended_witness :
    (generer_chapitre ["monstre"] sampleChapter (fun _ => .text "Le monstre arrive")
        (fun _ _ => false) false [] 3).meta.tentatives = 3 ∧
    (generer_chapitre ["monstre"] sampleChapter (fun _ => .text "Le monstre arrive")
        (fun _ _ => false) false [] 3).result.status = "failed" ∧
    (generer_chapitre ["monstre"] sampleChapter (fun _ => .text "Le monstre arrive")
        (fun _ _ => false) false [] 3).result.error_message = some "Rejeté par modérateur" ∧
    (generer_chapitre ["monstre"] sampleChapter (fun _ => .text "Le monstre arrive")
        (fun _ _ => false) false [] 3).moderCalls = 1 :=
  retry_exhaustion_amended ["monstre"] sampleChapter
    (fun _ => .text "Le monstre arrive") (fun _ _ => false) false [] 3
    (by decide)
    (fun _ _ _ => ⟨"Le monstre arrive", rfl, by decide, by decide⟩)
    rfl

/-! ### Run coordinator lemmas -/

lemma generer_chapter_number (peurs : List String) (chap : ChapterPrompt)
    (writerOut : Nat → WriterOut) (moder : List String → Nat → Bool)
    (painterOk : Bool) (prev : List String) (maxRetry : Nat) :
    (generer_chapitre peurs chap writerOut moder painterOk prev maxRetry).result.chapter_number
      = chap.chapter_number :=
  (genLoopAux_inv peurs chap writerOut moder painterOk prev maxRetry maxRetry 1).1

lemma generer_meta_status (peurs : List String) (chap : ChapterPrompt)
    (writerOut : Nat → WriterOut) (moder : List String → Nat → Bool)
    (painterOk : Bool) (prev : List String) (maxRetry : Nat) :
    (generer_chapitre peurs chap writerOut moder painterOk prev maxRetry).meta.status = "ok" ∨
    (generer_chapitre peurs chap writerOut moder painterOk prev maxRetry).meta.status = "failed" := by
  obtain ⟨-, -, h3, h4, -, -⟩ :=
    genLoopAux_inv peurs chap writerOut moder painterOk prev maxRetry maxRetry 1
  unfold generer_chapitre
  rw [h4]
  exact h3

lemma runStep_cases (col : Collab) (peurs : List String) (state : List Entry)
    (raw : ChapRaw) :
    (state.any (fun c => c.chapter_number == raw.numero) = true ∧
      runStep col peurs state raw = (state, 0)) ∨
    (state.any (fun c => c.chapter_number == raw.numero) = false ∧
      ∃ e : Entry, e.chapter_number = raw.numero ∧
        (e.status = "ok" ∨ e.status = "failed") ∧
        runStep col peurs state raw = (state ++ [e], 1)) := by
  by_cases hp : state.any (fun c => c.chapter_number == raw.numero) = true
  · left
    refine ⟨hp, ?_⟩
    unfold runStep
    rw [if_pos hp]
  · right
    refine ⟨by simpa using hp, entryOf raw
      (generer_chapitre peurs (mapChapterInput raw) (col.writer raw.numero)
        (col.moder raw.numero) (col.painterOk raw.numero)
        (state.map (fun c => c.story_text)) 3), ?_, ?_, ?_⟩
    · simp [entryOf, generer_chapter_number, mapChapterInput]
    · exact generer_meta_status _ _ _ _ _ _ _
    · unfold runStep
      rw [if_neg hp]

lemma runStep_present (col : Collab) (peurs : List String) (state : List Entry)
    (raw : ChapRaw) :
    (runStep col peurs state raw).1.any (fun e => e.chapter_number == raw.numero) = true := by
  rcases runStep_cases col peurs state raw with ⟨hp, heq⟩ | ⟨-, e, he, -, heq⟩
  · rw [heq]; exact hp
  · rw [heq]
    rw [List.any_append]
    simp [he]

lemma runCoordinator_any_mono (col : Collab) (peurs : List String)
    (p : Entry → Bool) :
    ∀ (cs : List ChapRaw) (state : List Entry), state.any p = true →
      (runCoordinator col peurs cs state).1.any p = true := by
  intro cs
  induction cs with
  | nil => intro state h; exact h
  | cons c rest ih =>
    intro state h
    rw [runCoordinator]
    dsimp only
    apply ih
    rcases runStep_cases col peurs state c with ⟨-, heq⟩ | ⟨-, e, -, -, heq⟩
    · rw [heq]; exact h
    · rw [heq]
      rw [List.any_append]
      simp [h]

lemma runCoordinator_present (col : Collab) (peurs : List String) :
    ∀ (cs : List ChapRaw) (state : List Entry) (raw : ChapRaw), raw ∈ cs →
      (runCoordinator col peurs cs state).1.any
        (fun e => e.chapter_number == raw.numero) = true := by
  intro cs
  induction cs with
  | nil => intro state raw h; cases h
  | cons c rest ih =>
    intro state raw h
    rw [runCoordinator]
    dsimp only
    rcases List.mem_cons.mp h with heq | hmem
    · subst heq
      exact runCoordinator_any_mono col peurs _ rest _ (runStep_present col peurs state raw)
    · exact ih _ raw hmem

lemma runCoordinator_skip_all (col : Collab) (peurs : List String) :
    ∀ (cs : List ChapRaw) (state : List Entry),
      (∀ raw ∈ cs, state.any (fun e => e.chapter_number == raw.numero) = true) →
      runCoordinator col peurs cs state = (state, 0) := by
  intro cs
  induction cs with
  | nil => intro state _; rfl
  | cons c rest ih =>
    intro state h
    have hstep : runStep col peurs state c = (state, 0) := by
      unfold runStep
      rw [if_pos (h c (List.mem_cons_self c rest))]
    rw [runCoordinator, hstep]
    dsimp only
    rw [ih state (fun raw hm => h raw (List.mem_cons_of_mem c hm))]
    rfl

lemma runCoordinator_count_le (col : Collab) (peurs : List String) :
    ∀ (cs : List ChapRaw) (state : List Entry),
      (∀ n, state.countP (fun e => e.chapter_number == n) ≤ 1) →
      ∀ n, (runCoordinator col peurs cs state).1.countP (fun e => e.chapter_number == n) ≤ 1 := by
  intro cs
  induction cs with
  | nil => intro state h n; exact h n
  | cons c rest ih =>
    intro state h
    rw [runCoordinator]
    dsimp only
    apply ih
    intro n
    rcases runStep_cases col peurs state c with ⟨-, heq⟩ | ⟨hp, e, he, -, heq⟩
    · rw [heq]; exact h n
    · rw [heq]
      rw [List.countP_append]
      by_cases hn : c.numero = n
      · subst hn
        have h0 : state.countP (fun e => e.chapter_number == c.numero) = 0 := by
          rw [List.countP_eq_zero]
          intro x hx hbx
          have htrue : state.any (fun e => e.chapter_number == c.numero) = true :=
            List.any_eq_true.mpr ⟨x, hx, hbx⟩
          rw [htrue] at hp
          cases hp
        rw [h0]
        simp [he]
      · have h0 : List.countP (fun x => x.chapter_number == n) [e] = 0 := by
          simp [he, hn]
        rw [h0]
        simpa using h n

lemma runCoordinator_statuses (col : Collab) (peurs : List String) :
    ∀ (cs : List ChapRaw) (state : List Entry),
      (∀ e ∈ state, e.status = "ok" ∨ e.status = "failed") →
      ∀ e ∈ (runCoordinator col peurs cs state).1, e.status = "ok" ∨ e.status = "failed" := by
  intro cs
  induction cs with
  | nil => intro state h; exact h
  | cons c rest ih =>
    intro state h
    rw [runCoordinator]
    dsimp only
    apply ih
    rcases runStep_cases col peurs state c with ⟨-, heq⟩ | ⟨-, e, -, hst, heq⟩
    · rw [heq]; exact h
    · rw [heq]
      intro x hx
      rcases List.mem_append.mp hx with hx | hx
      · exact h x hx
      · rw [List.mem_singleton.mp hx]
        exact hst

/-! ### C5 — coverage of planned chapters: the two coordinators diverge -/

lemma runCoordinator_exactly_one (col : Collab) (peurs : List String)
    (cs : List ChapRaw) (s0 : List Entry) (raw : ChapRaw) (hmem : raw ∈ cs)
    (hinv : ∀ n, s0.countP (fun e => e.chapter_number == n) ≤ 1)
    (hstat : ∀ e ∈ s0, e.status = "ok" ∨ e.status = "failed") :
    (runCoordinator col peurs cs s0).1.countP
        (fun e => e.chapter_number == raw.numero) = 1 ∧
    (runCoordinator col peurs cs s0).1.countP
        (fun e => e.chapter_number == raw.numero &&
          (e.status == "ok" || e.status == "failed")) = 1 := by
  have hle := runCoordinator_count_le col peurs cs s0 hinv raw.numero
  have hany := runCoordinator_present col peurs cs s0 raw hmem
  have hpos : 0 < (runCoordinator col peurs cs s0).1.countP
      (fun e => e.chapter_number == raw.numero) := by
    rw [List.countP_pos_iff]
    exact List.any_eq_true.mp hany
  have h1 : (runCoordinator col peurs cs s0).1.countP
      (fun e => e.chapter_number == raw.numero) = 1 := by omega
  refine ⟨h1, ?_⟩
  rw [← h1]
  apply List.countP_congr
  intro e he
  have hst := runCoordinator_statuses col peurs cs s0 hstat e he
  rcases hst with hok | hfail
  · simp [hok]
  · simp [hfail]

/-- Counterexample to C5 as stated: in the workflow.py variant the claim
fails at a concrete input. On a two-chapter plan where the writer
succeeds but the judgment call errors on chapter index 0 (so the
fail-closed `verify_coherence` reports not coherent), `moderator_node`
records the error and `check_moderation` routes to END: the run stops
with `generated_chapters = []` and the index still 0 — the failed
chapter gets no result at all and chapter 2 is never processed, so a
single chapter failure DOES abort this run and not every planned
chapter_number ends up with exactly one result. -/
theorem run_aborts_on_moderation_failure :
    workflowRun (fun _ => .text "Il etait une fois") (fun _ => .error "timeout")
        (fun _ => "") (fun _ => "") wfPlanTwo =
      .ok { chapters := wfPlanTwo, current_chapter_index := 0
            generated_chapters := [], is_complete := false
            error := some "Moderation rejected: Moderation check failed: timeout"
            current_chapter_content := some "Il etait une fois"
            current_chapter_image := none, current_chapter_audio := none } := rfl

/-- C5 amended: the two run coordinators diverge. In the orchestrator.py
`main` coordinator, a completed run leaves exactly one entry — with
status ok or failed — for every planned chapter_number, whatever the
collaborators do (the loop continues past failed chapters; first
conjunct). In the workflow.py LangGraph variant, `check_moderation`
routes to END as soon as moderation fails or errors: the iteration
returns with the error recorded, `generated_chapters` unchanged (the
failed chapter gets no entry) and the chapter index not advanced, so
every later planned chapter is left unprocessed (second conjunct). -/
theorem run_coverage_divergence_amended (col : Collab) (peurs : List String)
    (cs : List ChapRaw) (s0 : List Entry) (raw : ChapRaw)
    (wW : Nat → WriterOut) (mW : Nat → Except String ParsedModeration)
    (pW aW : Nat → String) (fuel : Nat) (s : WorkflowState)
    (c : ChapRaw) (txt : String)
    (hmem : raw ∈ cs)
    (hinv : ∀ n, s0.countP (fun e => e.chapter_number == n) ≤ 1)
    (hstat : ∀ e ∈ s0, e.status = "ok" ∨ e.status = "failed")
    (hchap : s.chapters.get? s.current_chapter_index = some c)
    (hw : wW s.current_chapter_index = .text txt)
    (hmod : (verify_coherence (mW s.current_chapter_index)).coherent = false) :
    ((runCoordinator col peurs cs s0).1.countP
        (fun e => e.chapter_number == raw.numero) = 1 ∧
      (runCoordinator col peurs cs s0).1.countP
        (fun e => e.chapter_number == raw.numero &&
          (e.status == "ok" || e.status == "failed")) = 1) ∧
    workflowChapterLoop wW mW pW aW (fuel + 1) s =
      .ok { s with current_chapter_content := some txt
                   error := some (moderationRejectedMsg
                     (verify_coherence (mW s.current_chapter_index))) } := by
  refine ⟨runCoordinator_exactly_one col peurs cs s0 raw hmem hinv hstat, ?_⟩
  rw [workflowChapterLoop, hchap]
  dsimp only
  rw [hw]
  dsimp only
  rw [hmod]
  rfl

/-- Witness for the amended C5: a two-chapter plan run through both
coordinators — the orchestrator yields exactly one failed entry for
chapter 2, while the workflow variant aborts at chapter index 0 with an
erroring judgment. -/
theorem run_coverage_divergence_amended_witness :
    ((runCoordinator stubCollab [] wfPlanTwo []).1.countP
        (fun e => e.chapter_number == 2) = 1 ∧
      (runCoordinator stubCollab [] wfPlanTwo []).1.countP
        (fun e => e.chapter_number == 2 &&
          (e.status == "ok" || e.status == "failed")) = 1) ∧
    workflowChapterLoop (fun _ => .text "Il etait une fois")
        (fun _ => .error "timeout") (fun _ => "") (fun _ => "") 1 (wfInit wfPlanTwo) =
      .ok { wfInit wfPlanTwo with
            current_chapter_content := some "Il etait une fois"
            error := some (moderationRejectedMsg
              (verify_coherence (Except.error "timeout"))) } :=
  run_coverage_divergence_amended stubCollab [] wfPlanTwo []
    { numero := 2, titre := "Deux", resume := "b", duree_minutes := 2 }
    (fun _ => .text "Il etait une fois") (fun _ => .error "timeout")
    (fun _ => "") (fun _ => "") 0 (wfInit wfPlanTwo)
    { numero := 1, titre := "Un", resume := "a", duree_minutes := 2 }
    "Il etait une fois"
    (by decide) (fun n => by simp) (fun e he => by cases he)
    rfl rfl (by decide)

/-! ### C6 — idempotent resumability -/

/-- C6: running the coordinator a second time on the same plan, starting
from the RunState persisted by the first run, changes nothing: the state
is returned as-is and the orchestrator is invoked zero times, whatever
the chapters' statuses (ok or failed) and even with different
collaborators or forbidden lists on the second run. -/
theorem idempotent_resumability (col col2 : Collab)
    (peurs peurs2 : List String) (cs : List ChapRaw) (s0 : List Entry) :
    runCoordinator col2 peurs2 cs (runCoordinator col peurs cs s0).1
      = ((runCoordinator col peurs cs s0).1, 0) :=
  runCoordinator_skip_all col2 peurs2 cs (runCoordinator col peurs cs s0).1
    (fun raw hm => runCoordinator_present col peurs cs s0 raw hm)

/-! ### C7 — empty plan is not rejected by the run coordinator -/

/-- Counterexample to C7: on a plan whose chapter list is empty, the run
coordinator (the chapter loop of orchestrator.py `main`) completes
normally with zero chapter results and zero orchestrator invocations — no
validation error is raised before chapter processing; `main` performs no
structural check on the loaded plan. -/
theorem empty_plan_counterexample :
    runCoordinator stubCollab [] [] [] = ([], 0) := rfl

/-- C7 amended: the empty-chapter check lives in
`ManagerAgent._validate_plan`, which raises
`ValueError("Plan.chapitres doit être une liste non vide")` for a plan
with all required keys but no chapters; the run coordinator itself
performs no such check and completes normally, returning the initial
state untouched with zero orchestrator calls. -/
theorem empty_plan_validation_amended (p : PlanJson) (col : Collab)
    (peurs : List String) (s0 : List Entry)
    (h1 : p.hasPlan = true) (h2 : p.hasChapitres = true)
    (h3 : p.hasMorale = true) (h4 : p.hasPersonnages = true)
    (h5 : p.hasElementsCles = true) (h6 : p.planTitre.isSome = true)
    (h7 : p.chapitres = []) :
    validate_plan p = .error "Plan.chapitres doit être une liste non vide" ∧
    runCoordinator col peurs p.chapitres s0 = (s0, 0) := by
  constructor
  · have h6' : p.planTitre.isNone = false := by
      cases hp : p.planTitre
      · rw [hp] at h6; cases h6
      · rfl
    unfold validate_plan
    rw [h1, h2, h3, h4, h5, h6', h7]
    simp
  · rw [h7]
    rfl

/-- Witness for the amended C7 at the concrete empty-chapters plan. -/
theorem empty_plan_validation_amended_witness :
    validate_plan emptyChaptersPlan
        = .error "Plan.chapitres doit être une liste non vide" ∧
    runCoordinator stubCollab [] emptyChaptersPlan.chapitres [] = ([], 0) :=
  empty_plan_validation_amended emptyChaptersPlan stubCollab [] []
    rfl rfl rfl rfl rfl rfl rfl

/-! ### C1 — fail mode of the judgment step -/

lemma verifierLoop_none : ∀ (fuel a : Nat), verifierLoop (fun _ => none) fuel a = true := by
  intro fuel
  induction fuel with
  | zero => intro a; rfl
  | succ f ih => intro a; exact ih (a + 1)

/-- Counterexample to C1 as stated: with a configured client and a
judgment capability that errors on every internal attempt (transport
failure or unparseable response on all `retries + 1 = 3` tries),
`verifier_coherence` of moderateur.py returns `true` — the verdict is
ACCEPTED after judgment errors, not rejected, via the accept-by-default
fallback at moderateur.py lines 128-130. -/
theorem fail_closed_counterexample :
    verifier_coherence true (fun _ _ => none) "Il pleut des cordes"
      [] [] [] ["monstre"] none 2 = true := by decide

/-- C1 amended: the two moderator variants disagree. The narrative
moderator `verify_coherence` (moderator.py) is fail-closed: any judgment
exception yields a rejected verdict (`coherent = false`,
`approved = false`, `severity = "rejected"`). The multi-agents moderator
`verifier_coherence` (moderateur.py) is fail-open: when every internal
judgment attempt errors, it returns accepted (`True`) for any input. -/
theorem fail_mode_divergence_amended :
    (∀ e : String,
      (verify_coherence (.error e)).coherent = false ∧
      (verify_coherence (.error e)).approved = some false ∧
      (verify_coherence (.error e)).severity = some "rejected") ∧
    (∀ (retries : Nat) (texte : String) (prev : List String)
        (input : List ChapRaw) (chars forb : List String) (cur : Option Nat),
      verifier_coherence true (fun _ _ => none) texte prev input chars forb cur retries
        = true) := by
  constructor
  · intro e
    exact ⟨rfl, rfl, rfl⟩
  · intro retries texte prev input chars forb cur
    unfold verifier_coherence
    rw [if_neg (by simp)]
    exact verifierLoop_none (retries + 1) 1

/-! ### C8 — at most the last two prior chapters reach the judgment -/

/-- C8: the prior-chapter texts that `verifier_coherence` embeds into the
judgment prompt are always a suffix of the supplied list of length at
most two — the judgment capability never receives more than the last two
prior chapters, however many exist. -/
theorem judgment_gets_last_two_chapters :
    ∀ prev : List String,
      (promptIncludedChapters prev).length ≤ 2 ∧
      List.IsSuffix (promptIncludedChapters prev) prev := by
  intro prev
  unfold promptIncludedChapters lastTwo
  by_cases h : prev.isEmpty
  · rw [if_pos h]
    exact ⟨by simp, List.nil_suffix⟩
  · rw [if_neg h]
    refine ⟨?_, List.drop_suffix _ _⟩
    rw [List.length_drop]
    omega

/-! ### C10 — no API key means the semantic check is skipped -/

/-- C10: when no Groq client was constructed (no API key),
`verifier_coherence` returns `True` for every input unconditionally — in
particular for drafts containing forbidden elements — so the semantic
safety check is skipped, not failed (moderateur.py lines 37-39). -/
theorem no_client_accepts_unconditionally :
    ∀ (judge : String → Nat → Option Bool) (texte : String)
      (prev : List String) (input : List ChapRaw) (chars forb : List String)
      (cur : Option Nat) (retries : Nat),
      verifier_coherence false judge texte prev input chars forb cur retries = true := by
  intros
  rfl

end EtherStories
